import Mathlib

/-!
Verification of the retrieval-and-generation core of the streamlit-app
repository.  The Python sources are embedded shallowly: pure string
composition becomes Lean string functions, the external Supabase store and
the hosted language model become explicit function parameters, raised
exceptions become Except values, and Streamlit session state becomes
explicit list passing.  Debug lines that the sources emit only when the
debug checkbox is on are omitted (the flag is modelled as off); debug lines
appended unconditionally are kept verbatim.
-/

/-- Python list slicing l[-n:], the last n elements of l. -/
def takeLast {α : Type} (n : Nat) (l : List α) : List α :=
  l.drop (l.length - n)

/-- Row of the research_evidence table as consumed by the apps
(the fields read at the call sites: source_type, market, content). -/
structure EvidenceItem where
  id : Nat
  market : String
  source_type : String
  content : String
  deriving DecidableEq

/-- Parameters of one supabase.rpc call to the server-side search_evidence
function: market_filter, match_threshold and match_count, as assembled at
each retrieval call site. -/
structure SearchRequest where
  market_filter : String
  match_threshold : ℚ
  match_count : Nat
  deriving DecidableEq

/-- External Evidence Store boundary: rpcSearch is the server-side
similarity search (given the question, standing for its embedding, and the
request parameters), tableFetch is a plain filtered select on the
research_evidence table with a row limit.  Either call can fail, which the
Python sources would see as a raised exception. -/
structure Store where
  rpcSearch : String → SearchRequest → Except String (List EvidenceItem)
  tableFetch : String → Nat → Except String (List EvidenceItem)

/-- Request assembled by search_evidence in app.py and streamlit_app.py:
the given market filter, threshold 0.65, and the given match count. -/
def appSearchRequest (market : String) (limit : Nat) : SearchRequest :=
  { market_filter := market, match_threshold := (65 : ℚ)/100, match_count := limit }

/-- search_evidence of app.py: one rpc call with threshold 0.65; a raised
error is caught and an empty list is returned, and an ok result is passed
through (the else-empty guard on result.data is the identity on lists). -/
def app_search_evidence (store : Store) (question market : String) (limit : Nat) :
    List EvidenceItem :=
  match store.rpcSearch question (appSearchRequest market limit) with
  | .ok data => data
  | .error _ => []

/-- search_evidence of streamlit_app.py: same request shape, but no
try/except, so a raised error propagates to the caller. -/
def st_search_evidence (store : Store) (query market : String) (limit : Nat) :
    Except String (List EvidenceItem) :=
  store.rpcSearch query (appSearchRequest market limit)

/-- Request assembled by retrieve_evidence in demo_app.py: market filter
fixed to korea, threshold 0.60, and the given match count. -/
def demoRetrieveRequest (limit : Nat) : SearchRequest :=
  { market_filter := "korea", match_threshold := (60 : ℚ)/100, match_count := limit }

/-- retrieve_evidence of demo_app.py: one rpc call with threshold 0.60 and
no try/except, so a raised error propagates. -/
def demo_retrieve_evidence (store : Store) (question : String) (limit : Nat) :
    Except String (List EvidenceItem) :=
  store.rpcSearch question (demoRetrieveRequest limit)

/-- Chat flow of streamlit_app.py: local search with limit 4, global search
with limit 2, concatenated local-first; there is no fallback and an error
from either search propagates. -/
def stChatEvidence (store : Store) (question personaMarket : String) :
    Except String (List EvidenceItem) :=
  match st_search_evidence store question personaMarket 4 with
  | .error e => .error e
  | .ok localEv =>
    match st_search_evidence store question "global" 2 with
    | .error e => .error e
    | .ok globalEv => .ok (localEv ++ globalEv)

/-- Observable outcome of the evidence-gathering part of one chat-tab turn
in app.py: the two search results, their concatenation, the evidence
actually handed to generation, the similarity-search requests issued, the
fallback table fetch issued (market and row cap) if any, and the debug
lines appended unconditionally in the fallback block. -/
structure ChatResult where
  localEvidence : List EvidenceItem
  globalEvidence : List EvidenceItem
  merged : List EvidenceItem
  evidence : List EvidenceItem
  searchCalls : List SearchRequest
  fallbackRequest : Option (String × Nat)
  debugInfo : List String
  deriving DecidableEq

/-- Chat tab of app.py: search_evidence on the persona market with limit 5,
then on global with limit 2; all_evidence is the concatenation; if it is
empty, a plain table fetch on the persona market capped at 3 rows runs as
fallback, its items (when any) become the evidence and are labelled as not
semantically matched in the debug info; a fallback error leaves the
evidence empty. -/
def appChatRetrieve (store : Store) (question personaMarket : String) : ChatResult :=
  let localEv := app_search_evidence store question personaMarket 5
  let globalEv := app_search_evidence store question "global" 2
  let allEv := localEv ++ globalEv
  let fb : List EvidenceItem × Option (String × Nat) × List String :=
    if allEv = [] then
      match store.tableFetch personaMarket 3 with
      | .ok data =>
        if data = [] then
          (allEv, some (personaMarket, 3),
            ["⚠️ Vector search found nothing. Trying fallback: getting random evidence...",
             "❌ Even fallback found nothing - database might be empty"])
        else
          (data, some (personaMarket, 3),
            ["⚠️ Vector search found nothing. Trying fallback: getting random evidence...",
             "✅ Fallback found " ++ toString data.length ++ " items (not semantically matched)"])
      | .error e =>
        (allEv, some (personaMarket, 3),
          ["⚠️ Vector search found nothing. Trying fallback: getting random evidence...",
           "❌ Fallback error: " ++ e])
    else (allEv, none, [])
  { localEvidence := localEv
    globalEvidence := globalEv
    merged := allEv
    evidence := fb.1
    searchCalls := [appSearchRequest personaMarket 5, appSearchRequest "global" 2]
    fallbackRequest := fb.2.1
    debugInfo := fb.2.2 }

/-- One stored conversation exchange: the question, the generated answer
and the evidence shown with it (timestamp and cached debug lines omitted:
no claim reads them). -/
structure Exchange where
  question : String
  answer : String
  evidence : List EvidenceItem
  deriving DecidableEq

/-- Persona record as read by the two main apps.  The new-style fields
(household, devices, routines, tensions, language_style) and the legacy
fields (age, occupation, bio, pain_points, goals) are all optional in the
database rows, so absence is modelled with Option and empty lists. -/
structure Persona where
  name : String
  market : String
  household : Option String
  devices : List String
  routines : List String
  tensions : List String
  language_style : Option String
  age : Option Nat
  occupation : Option String
  bio : Option String
  pain_points : List String
  goals : List String
  deriving DecidableEq

/-- Evidence block shared by generate_synthetic_response in app.py and in
streamlit_app.py: one Source/Content paragraph per item joined by a
newline, or a fixed sentence when the list is empty. -/
def rag_evidence_text (evidence : List EvidenceItem) : String :=
  if evidence = [] then "No specific evidence found."
  else
    String.intercalate "\n"
      (evidence.map (fun item =>
        "Source: " ++ item.source_type ++ " (" ++ item.market ++ ")\nContent: "
          ++ item.content ++ "\n---"))

/-- Slice of the stored conversation used for the condensed history block
in app.py, literally conversation_history[-6:], the last six stored
exchanges. -/
def app_summary_slice (history : List Exchange) : List Exchange :=
  takeLast 6 history

/-- Slice of the stored conversation replayed as chat messages in app.py,
literally conversation_history[-4:], the last four stored exchanges. -/
def app_forward_slice (history : List Exchange) : List Exchange :=
  takeLast 4 history

/-- history_text of generate_synthetic_response in app.py: empty when the
history is empty, otherwise a header followed by one User-asked and
You-responded pair per exchange of the last-six slice. -/
def app_history_text (history : List Exchange) : String :=
  if history = [] then ""
  else
    "\n\nPrevious conversation context:\n" ++
      String.join ((app_summary_slice history).map (fun item =>
        "User asked: " ++ item.question ++ "\nYou responded: " ++ item.answer ++ "\n\n"))

/-- system_prompt of generate_synthetic_response in app.py, verbatim.  Only
the new-style persona fields appear, with the Python get defaults for the
missing ones; the legacy fields are never referenced. -/
def app_system_prompt (persona : Persona) (evidence : List EvidenceItem)
    (history : List Exchange) : String :=
  "You are " ++ persona.name ++ ".\n\nYour household: "
    ++ persona.household.getD "Not specified"
    ++ "\nYour devices: " ++ String.intercalate ", " persona.devices
    ++ "\nYour routines: " ++ String.intercalate ", " persona.routines
    ++ "\nYour tensions: " ++ String.intercalate ", " persona.tensions
    ++ "\n\nSpeak in this style: " ++ persona.language_style.getD "conversational"
    ++ "\n\nIMPORTANT INSTRUCTIONS:\n1. Answer questions AS THIS PERSON in first person\n2. Be authentic and conversational (2-4 sentences)\n3. Use the evidence below to inform your answer\n4. Remember the conversation history - build on previous answers\n5. Stay consistent with what you\x27ve said before\n6. Speak naturally as this persona would\n\nEvidence from research:\n"
    ++ rag_evidence_text evidence
    ++ "\n" ++ app_history_text history
    ++ "\n\nNow answer the current question naturally, considering both the evidence and our conversation so far."

/-- Role-tagged message as sent to the chat model. -/
inductive Message where
  | system (content : String)
  | human (content : String)
  | ai (content : String)
  deriving DecidableEq

/-- Message list built by generate_synthetic_response in app.py: the system
prompt, then a human and an ai message per exchange of the last-four slice,
then the current question. -/
def app_messages (persona : Persona) (question : String)
    (evidence : List EvidenceItem) (history : List Exchange) : List Message :=
  [Message.system (app_system_prompt persona evidence history)]
    ++ List.flatten ((app_forward_slice history).map (fun item =>
        [Message.human item.question, Message.ai item.answer]))
    ++ [Message.human question]

/-- system_prompt of generate_synthetic_response in streamlit_app.py,
verbatim.  It dereferences the legacy fields age, occupation and bio
without a default, so a persona missing one of them makes the call raise a
KeyError, modelled as none; the new-style fields are never referenced. -/
def st_system_prompt (persona : Persona) (evidence : List EvidenceItem) :
    Option String :=
  match persona.age, persona.occupation, persona.bio with
  | some age, some occupation, some bio =>
    some ("You are " ++ persona.name ++ ", a " ++ toString age ++ "-year-old "
      ++ occupation ++ " from " ++ persona.market
      ++ ".\n\nYour background: " ++ bio
      ++ "\nYour pain points: " ++ String.intercalate ", " persona.pain_points
      ++ "\nYour goals: " ++ String.intercalate ", " persona.goals
      ++ "\n\nAnswer questions AS THIS PERSON. Use first person. Be authentic and conversational (2-4 sentences).\nBase your answers on the evidence below when relevant, but speak naturally.\n\nEvidence from research:\n"
      ++ rag_evidence_text evidence)
  | _, _, _ => none

/-- Persona constant of demo_app.py (all fields mandatory there). -/
structure DemoPersona where
  name : String
  household : String
  age : Nat
  occupation : String
  devices : List String
  routines : List String
  tensions : List String
  language_style : String
  deriving DecidableEq

/-- PERSONA constant of demo_app.py. -/
def demo_PERSONA : DemoPersona :=
  { name := "Ji-woo Kim"
    household := "Single, Seoul apartment"
    age := 28
    occupation := "Digital Marketing Manager"
    devices := ["Coupang Rocket delivery", "Naver Shopping app"]
    routines := ["Online shopping 3-4x/week", "Check blog reviews before buying"]
    tensions := ["Too many apps to download", "Delivery times matter", "Trust influencer vs real reviews"]
    language_style := "informal, tech-savvy, a bit impatient" }

/-- persona_text of generate_response in demo_app.py, verbatim. -/
def demo_persona_text (p : DemoPersona) : String :=
  "You are " ++ p.name ++ ", a " ++ toString p.age ++ "-year-old " ++ p.occupation
    ++ " living in " ++ p.household
    ++ ".\n\nYour situation:\n- Devices you use: " ++ String.intercalate ", " p.devices
    ++ "\n- Your routines: " ++ String.intercalate ", " p.routines
    ++ "\n- Your tensions: " ++ String.intercalate ", " p.tensions
    ++ "\n\nSpeak in this style: " ++ p.language_style

/-- system_prompt of generate_response in demo_app.py: grounded variant
with quotes when transcripts are on and evidence was found, grounded
variant without quotes when none was found, generic variant otherwise. -/
def demo_system_prompt (p : DemoPersona) (use_transcripts : Bool)
    (evidence : List EvidenceItem) : String :=
  if use_transcripts then
    if evidence ≠ [] then
      demo_persona_text p
        ++ "\n\nCRITICAL INSTRUCTIONS:\n- Answer based ONLY on the real quotes below and your persona profile\n- NEVER invent facts, ownership, or experiences not in the quotes\n- If you\x27re unsure or the quotes don\x27t cover it, say \"I\x27m not sure\" or \"that wasn\x27t mentioned\"\n- Prefer direct evidence from the quotes when possible\n\nReal research quotes:\n"
        ++ String.intercalate "\n\n"
            (evidence.map (fun ev => "Real quote from research: \"" ++ ev.content ++ "\""))
    else
      demo_persona_text p
        ++ "\n\nNote: No specific research quotes found for this question. Answer based only on your persona profile, and acknowledge uncertainty."
  else
    demo_persona_text p ++ "\n\nAnswer the question based on your persona profile."

/-- One chat-tab turn of app.py at the history level: the model is invoked
on the assembled messages; on success the exchange is appended to the
session conversation, on a raised error nothing runs after the call, so
the stored history is unchanged. -/
def chat_turn (gen : List Message → Except String String) (persona : Persona)
    (history : List Exchange) (question : String) (evidence : List EvidenceItem) :
    List Exchange :=
  match gen (app_messages persona question evidence history) with
  | .ok answer => history ++ [{ question := question, answer := answer, evidence := evidence }]
  | .error _ => history

/-- Whole-session fold: the turns of one session applied in order to an
initially empty conversation. -/
def run_session (gen : List Message → Except String String) (persona : Persona)
    (turns : List (String × List EvidenceItem)) : List Exchange :=
  turns.foldl (fun h t => chat_turn gen persona h t.1 t.2) []

/-- valid_markets of add_evidence.py. -/
def valid_markets : List String := ["korea", "poland", "turkey", "global"]

/-- valid_types of add_evidence.py. -/
def valid_types : List String :=
  ["interview_transcript", "social_listening", "search_query", "user_quote", "behavioral_data"]

/-- Row assembled by add_single_evidence before the insert. -/
structure EvidenceRow where
  market : String
  source_type : String
  content : String
  embedding : List ℚ
  metadata : List (String × String)
  source_date : String
  created_at : String
  deriving DecidableEq

/-- External collaborators of add_evidence.py: the embedding model, the
two date strings, and whether the database accepts a given insert. -/
structure IngestEnv where
  embed : String → List ℚ
  today : String
  now : String
  insertOk : EvidenceRow → Bool

/-- Observable side effects of ingestion: the contents sent to the
embedding model, in order, and the rows written to the store. -/
structure IngestState where
  embedCalls : List String
  rows : List EvidenceRow
  deriving DecidableEq

/-- add_single_evidence of add_evidence.py: reject an unknown market, then
an unknown source type, each before any embedding or insert; otherwise
embed the content, build the row, and insert it, a failed insert being
caught and reported as False with the embedding already computed. -/
def add_single_evidence (env : IngestEnv) (st : IngestState)
    (market source_type content : String)
    (metadata : Option (List (String × String))) : Bool × IngestState :=
  if market ∉ valid_markets then (false, st)
  else if source_type ∉ valid_types then (false, st)
  else
    let row : EvidenceRow :=
      { market := market
        source_type := source_type
        content := content
        embedding := env.embed content
        metadata := metadata.getD []
        source_date := env.today
        created_at := env.now }
    let st2 : IngestState := { st with embedCalls := st.embedCalls ++ [content] }
    if env.insertOk row then (true, { st2 with rows := st2.rows ++ [row] })
    else (false, st2)

/-- One parsed item of the bulk JSON file; item.get returns none for a
missing key. -/
structure BulkItem where
  market : Option String
  source_type : Option String
  content : Option String
  metadata : Option (List (String × String))
  deriving DecidableEq

/-- Python truthiness of an optional string: None and the empty string are
falsy, every other string is truthy. -/
def pyTruthy : Option String → Bool
  | none => false
  | some s => !(s == "")

/-- The required-field check of add_bulk_evidence, literally
all of market, source_type and content being truthy. -/
def requiredPresent (it : BulkItem) : Bool :=
  pyTruthy it.market && pyTruthy it.source_type && pyTruthy it.content

/-- Loop body of add_bulk_evidence: skip the item when a required field is
missing or empty, otherwise delegate to add_single_evidence and count a
True result. -/
def bulk_step (env : IngestEnv) : Nat × IngestState → BulkItem → Nat × IngestState
  | (cnt, st), it =>
    if requiredPresent it then
      match add_single_evidence env st (it.market.getD "") (it.source_type.getD "")
          (it.content.getD "") (some (it.metadata.getD [])) with
      | (true, st2) => (cnt + 1, st2)
      | (false, st2) => (cnt, st2)
    else (cnt, st)

/-- add_bulk_evidence of add_evidence.py, given an already parsed item
list: process every item in order with no early exit and report the
success count together with the total item count. -/
def add_bulk_evidence (env : IngestEnv) (st : IngestState) (items : List BulkItem) :
    Nat × Nat × IngestState :=
  let r := items.foldl (bulk_step env) (0, st)
  (r.1, items.length, r.2)

/-- An item passes the whole per-item validation chain when all three
required fields are truthy and both enumeration checks succeed. -/
def item_ok (it : BulkItem) : Bool :=
  requiredPresent it
    && decide ((it.market.getD "") ∈ valid_markets)
    && decide ((it.source_type.getD "") ∈ valid_types)

/-- Row that add_single_evidence builds for a bulk item that passes
validation. -/
def bulk_row (env : IngestEnv) (it : BulkItem) : EvidenceRow :=
  { market := it.market.getD ""
    source_type := it.source_type.getD ""
    content := it.content.getD ""
    embedding := env.embed (it.content.getD "")
    metadata := it.metadata.getD []
    source_date := env.today
    created_at := env.now }

/-- Persona copy with the legacy fields blanked. -/
def stripLegacy (p : Persona) : Persona :=
  { p with age := none, occupation := none, bio := none, pain_points := [], goals := [] }

/-- Persona copy with the new-style fields blanked. -/
def stripNewStyle (p : Persona) : Persona :=
  { p with
    household := none
    devices := []
    routines := []
    tensions := []
    language_style := none }

/-- Sample evidence item stored under the korea segment. -/
def evKorea : EvidenceItem :=
  { id := 1, market := "korea", source_type := "user_quote",
    content := "Delivery speed decides where I buy" }

/-- Sample evidence item stored under the global segment. -/
def evGlobal : EvidenceItem :=
  { id := 2, market := "global", source_type := "search_query",
    content := "best price comparison app" }

/-- Sample evidence item surfaced only by the fallback fetch. -/
def evFallback : EvidenceItem :=
  { id := 3, market := "korea", source_type := "interview_transcript",
    content := "I compare reviews across blogs" }

/-- Sample persona with both attribute sets populated. -/
def samplePersona : Persona :=
  { name := "Min-ji", market := "korea"
    household := some "Family of four, Busan"
    devices := ["phone"], routines := ["daily shopping"], tensions := ["ads"]
    language_style := some "casual"
    age := some 31, occupation := some "nurse", bio := some "Busy parent"
    pain_points := ["slow apps"], goals := ["save time"] }

/-- Sample persona carrying only the legacy attribute set. -/
def legacyOnlyPersona : Persona :=
  { name := "Ana", market := "poland"
    household := none, devices := [], routines := [], tensions := []
    language_style := none
    age := some 34, occupation := some "teacher", bio := some "Loves hiking"
    pain_points := ["slow delivery"], goals := ["save money"] }

/-- Store whose similarity search always comes back empty while the plain
table fetch still has rows. -/
def emptySearchStore : Store :=
  { rpcSearch := fun _ _ => .ok []
    tableFetch := fun _ _ => .ok [evFallback] }

/-- Store with korea evidence but an empty global segment. -/
def partialStore : Store :=
  { rpcSearch := fun _ r => if r.market_filter = "global" then .ok [] else .ok [evKorea]
    tableFetch := fun _ _ => .ok [evFallback] }

/-- Store whose every call raises. -/
def errStore : Store :=
  { rpcSearch := fun _ _ => .error "boom"
    tableFetch := fun _ _ => .error "boom" }

/-- Store answering both segments with one item each. -/
def okStore : Store :=
  { rpcSearch := fun _ r => if r.market_filter = "global" then .ok [evGlobal] else .ok [evKorea]
    tableFetch := fun _ _ => .ok [] }

/-- Generator that always answers. -/
def genOkFn : List Message → Except String String := fun _ => .ok "fine"

/-- Generator that always raises a network error. -/
def genFailFn : List Message → Except String String := fun _ => .error "net down"

/-- Ingestion environment for concrete runs: a deterministic toy embedder
and a database that accepts every insert. -/
def sampleEnv : IngestEnv :=
  { embed := fun s => [(s.length : ℚ)]
    today := "2026-10-12"
    now := "2026-10-12T00:00:00"
    insertOk := fun _ => true }

/-- Ingestion state before any call. -/
def emptyIngest : IngestState := { embedCalls := [], rows := [] }

/-- Bulk item with all three required fields present. -/
def mkBulkItem (m ty c : String) : BulkItem :=
  { market := some m, source_type := some ty, content := some c, metadata := none }

/-- Five-item bulk batch whose third item carries the invalid market
atlantis. -/
def c8Items : List BulkItem :=
  [mkBulkItem "korea" "user_quote" "One",
   mkBulkItem "poland" "search_query" "Two",
   mkBulkItem "atlantis" "user_quote" "Three",
   mkBulkItem "turkey" "social_listening" "Four",
   mkBulkItem "global" "interview_transcript" "Five"]

/-- Exchange with empty evidence, for concrete histories. -/
def mkExchange (q a : String) : Exchange :=
  { question := q, answer := a, evidence := [] }

/-- Concrete four-exchange (eight-turn) conversation history. -/
def sampleHistory4 : List Exchange :=
  [mkExchange "q1" "a1", mkExchange "q2" "a2", mkExchange "q3" "a3", mkExchange "q4" "a4"]

/-- Bulk item whose content key is present but empty. -/
def emptyContentItem : BulkItem :=
  { market := some "korea", source_type := some "user_quote",
    content := some "", metadata := none }

/-- The last-n slice never exceeds n elements. -/
theorem takeLast_length_le {α : Type} (n : Nat) (l : List α) :
    (takeLast n l).length ≤ n := by
  simp only [takeLast, List.length_drop]
  omega

/-- Taking a last slice of a wider last slice is the narrow last slice. -/
theorem takeLast_takeLast {α : Type} {n m : Nat} (h : n ≤ m) (l : List α) :
    takeLast n (takeLast m l) = takeLast n l := by
  simp only [takeLast, List.length_drop, List.drop_drop]
  congr 1
  omega

/-- The last-n slice of a nonempty list is nonempty for positive n. -/
theorem takeLast_ne_nil {α : Type} {n : Nat} {l : List α} (h : l ≠ []) (hn : n ≠ 0) :
    takeLast n l ≠ [] := by
  have hp : 0 < l.length := List.length_pos.mpr h
  simp only [takeLast, ne_eq, List.drop_eq_nil_iff]
  omega

/-- Rejecting an unknown market or source type happens before any effect. -/
theorem add_single_invalid (env : IngestEnv) (st : IngestState)
    (m ty c : String) (md : Option (List (String × String)))
    (h : m ∉ valid_markets ∨ ty ∉ valid_types) :
    add_single_evidence env st m ty c md = (false, st) := by
  rcases h with hm | hty
  · simp [add_single_evidence, hm]
  · by_cases hm2 : m ∈ valid_markets
    · simp [add_single_evidence, hm2, hty]
    · simp [add_single_evidence, hm2]

/-- A validated item with an accepting database embeds once and inserts
exactly its row. -/
theorem add_single_valid (env : IngestEnv) (st : IngestState)
    (m ty c : String) (md : Option (List (String × String)))
    (hm : m ∈ valid_markets) (hty : ty ∈ valid_types)
    (hins : env.insertOk
      { market := m, source_type := ty, content := c, embedding := env.embed c,
        metadata := md.getD [], source_date := env.today, created_at := env.now } = true) :
    add_single_evidence env st m ty c md =
      (true,
       { embedCalls := st.embedCalls ++ [c],
         rows := st.rows ++
           [{ market := m, source_type := ty, content := c, embedding := env.embed c,
              metadata := md.getD [], source_date := env.today, created_at := env.now }] }) := by
  simp [add_single_evidence, hm, hty, hins]

/-- Fold characterization of the bulk loop when the database accepts every
insert: the success count grows by the number of fully valid items, the
embedder is called exactly on their contents in order, and exactly their
rows are appended in order. -/
theorem bulk_fold_spec (env : IngestEnv) (hins : ∀ r, env.insertOk r = true) :
    ∀ (items : List BulkItem) (cnt : Nat) (st : IngestState),
      items.foldl (bulk_step env) (cnt, st)
        = (cnt + (items.filter item_ok).length,
           { embedCalls := st.embedCalls
               ++ (items.filter item_ok).map (fun it => it.content.getD "")
             rows := st.rows ++ (items.filter item_ok).map (bulk_row env) }) := by
  intro items
  induction items with
  | nil => intro cnt st; simp
  | cons it its ih =>
    intro cnt st
    rw [List.foldl_cons]
    by_cases hreq : requiredPresent it = true
    · by_cases hmk : (it.market.getD "") ∈ valid_markets
      · by_cases hty : (it.source_type.getD "") ∈ valid_types
        · have hok : item_ok it = true := by
            simp [item_ok, hreq, hmk, hty]
          have hstep : bulk_step env (cnt, st) it =
              (cnt + 1,
               { embedCalls := st.embedCalls ++ [it.content.getD ""],
                 rows := st.rows ++ [bulk_row env it] }) := by
            simp only [bulk_step, hreq, if_true]
            rw [add_single_valid env st _ _ _ _ hmk hty (hins _)]
            rfl
          rw [hstep, ih]
          simp [hok, List.filter_cons, bulk_row, List.append_assoc]
          omega
        · have hok : item_ok it = false := by
            simp [item_ok, hty]
          have hstep : bulk_step env (cnt, st) it = (cnt, st) := by
            simp only [bulk_step, hreq, if_true]
            rw [add_single_invalid env st _ _ _ _ (Or.inr hty)]
          rw [hstep, ih]
          simp [hok, List.filter_cons]
      · have hok : item_ok it = false := by
          simp [item_ok, hmk]
        have hstep : bulk_step env (cnt, st) it = (cnt, st) := by
          simp only [bulk_step, hreq, if_true]
          rw [add_single_invalid env st _ _ _ _ (Or.inl hmk)]
        rw [hstep, ih]
        simp [hok, List.filter_cons]
    · have hreqf : requiredPresent it = false := by
        simpa using hreq
      have hok : item_ok it = false := by
        simp [item_ok, hreqf]
      have hstep : bulk_step env (cnt, st) it = (cnt, st) := by
        simp [bulk_step, hreqf]
      rw [hstep, ih]
      simp [hok, List.filter_cons]

/-- C7: a single-item insertion whose market is outside
korea/poland/turkey/global or whose source type is outside the five-value
enumeration returns False and leaves every observable effect unchanged: no
content is sent to the embedder and no row is written. -/
theorem c7_invalid_enum_rejected (env : IngestEnv) (st : IngestState)
    (market source_type content : String) (md : Option (List (String × String)))
    (h : market ∉ valid_markets ∨ source_type ∉ valid_types) :
    add_single_evidence env st market source_type content md = (false, st) :=
  add_single_invalid env st market source_type content md h

/-- C7 witness: inserting under the unknown market atlantis fails and
leaves the fresh ingestion state untouched. -/
theorem c7_invalid_enum_rejected_witness :
    add_single_evidence sampleEnv emptyIngest "atlantis" "user_quote" "Ships sank" none
      = (false, emptyIngest) :=
  c7_invalid_enum_rejected sampleEnv emptyIngest "atlantis" "user_quote" "Ships sank" none
    (Or.inl (by decide))

/-- C8: with a database that accepts inserts, bulk ingestion processes the
whole batch with no early abort: the reported success count is exactly the
number of items passing the per-item validation, the reported total is the
whole item count, and exactly the valid items are inserted, in order. -/
theorem c8_bulk_tally (env : IngestEnv) (hins : ∀ r, env.insertOk r = true)
    (items : List BulkItem) (st : IngestState) :
    (add_bulk_evidence env st items).1 = (items.filter item_ok).length ∧
    (add_bulk_evidence env st items).2.1 = items.length ∧
    (add_bulk_evidence env st items).2.2.rows
      = st.rows ++ (items.filter item_ok).map (bulk_row env) := by
  have h := bulk_fold_spec env hins items 0 st
  unfold add_bulk_evidence
  rw [h]
  exact ⟨Nat.zero_add _, rfl, rfl⟩

/-- C8 witness: the five-item batch whose third item has market atlantis
reports 4 successes out of 5 and writes exactly 4 rows. -/
theorem c8_bulk_tally_witness :
    (add_bulk_evidence sampleEnv emptyIngest c8Items).1 = 4 ∧
    (add_bulk_evidence sampleEnv emptyIngest c8Items).2.1 = 5 ∧
    (add_bulk_evidence sampleEnv emptyIngest c8Items).2.2.rows.length = 4 := by
  obtain ⟨h1, h2, h3⟩ := c8_bulk_tally sampleEnv (fun _ => rfl) c8Items emptyIngest
  refine ⟨by rw [h1]; decide, by rw [h2]; rfl, by rw [h3]; decide⟩

/-- C10: a bulk item whose market, source type or content key is present
but bound to the empty string fails the truthiness-based required-field
check exactly like a missing key: the loop body skips it, with no embedding
call, no insert and no success counted. -/
theorem c10_empty_string_like_missing (env : IngestEnv) (cnt : Nat)
    (st : IngestState) (it : BulkItem)
    (h : it.market = some "" ∨ it.source_type = some "" ∨ it.content = some "") :
    requiredPresent it = false ∧ bulk_step env (cnt, st) it = (cnt, st) := by
  have hreq : requiredPresent it = false := by
    rcases h with h | h | h <;>
      simp [requiredPresent, h, pyTruthy]
  exact ⟨hreq, by simp [bulk_step, hreq]⟩

/-- C10 witness: an item with an empty content string is skipped by the
bulk loop and the state is unchanged. -/
theorem c10_empty_string_like_missing_witness :
    requiredPresent emptyContentItem = false ∧
    bulk_step sampleEnv (0, emptyIngest) emptyContentItem = (0, emptyIngest) :=
  c10_empty_string_like_missing sampleEnv 0 emptyIngest emptyContentItem
    (Or.inr (Or.inr rfl))

/-- The merged list of the chat tab is definitionally the local-then-global
concatenation of the two search results. -/
theorem appChatRetrieve_merged (store : Store) (q m : String) :
    (appChatRetrieve store q m).merged
      = app_search_evidence store q m 5 ++ app_search_evidence store q "global" 2 := rfl

/-- Whenever the merged list is empty, the fallback table fetch on the
persona market with row cap 3 is issued, whatever it returns. -/
theorem appChatRetrieve_fallback_req (store : Store) (q m : String)
    (hm : app_search_evidence store q m 5 ++ app_search_evidence store q "global" 2 = []) :
    (appChatRetrieve store q m).fallbackRequest = some (m, 3) := by
  rcases htf : store.tableFetch m 3 with e | data
  · simp [appChatRetrieve, hm, htf]
  · by_cases hd : data = []
    · simp [appChatRetrieve, hm, htf, hd]
    · simp [appChatRetrieve, hm, htf, hd]

/-- Whenever the merged list is empty and the fallback fetch returns items,
those items become the evidence and the not-semantically-matched label is
appended to the debug info. -/
theorem appChatRetrieve_fallback_hit (store : Store) (q m : String)
    (data : List EvidenceItem)
    (hm : app_search_evidence store q m 5 ++ app_search_evidence store q "global" 2 = [])
    (htf : store.tableFetch m 3 = .ok data) (hd : data ≠ []) :
    (appChatRetrieve store q m).evidence = data ∧
    ("✅ Fallback found " ++ toString data.length ++ " items (not semantically matched)")
      ∈ (appChatRetrieve store q m).debugInfo := by
  constructor <;> simp [appChatRetrieve, hm, htf, hd]

/-- C1 counterexample: with a store whose similarity search finds nothing
for either segment while the fallback fetch has a row, the evidence passed
onward is the fallback row, not the (empty) concatenation of the two
retrieval results, so the claimed unconditional concatenation fails. -/
theorem c1_counterexample :
    (appChatRetrieve emptySearchStore "any question" "korea").localEvidence
        ++ (appChatRetrieve emptySearchStore "any question" "korea").globalEvidence = [] ∧
    (appChatRetrieve emptySearchStore "any question" "korea").evidence = [evFallback] ∧
    (appChatRetrieve emptySearchStore "any question" "korea").evidence
      ≠ (appChatRetrieve emptySearchStore "any question" "korea").localEvidence
        ++ (appChatRetrieve emptySearchStore "any question" "korea").globalEvidence := by
  refine ⟨rfl, rfl, by decide⟩

/-- C1 (amended): each chat question issues exactly the two similarity
searches, persona segment (limit 5) then global (limit 2); the merged list
is their concatenation persona-first; whenever that concatenation is
nonempty it is exactly the evidence passed onward; and the
streamlit_app.py chat flow passes the persona-first concatenation onward
whenever both of its searches succeed. -/
theorem c1_two_retrievals_concat (store : Store) (question market : String) :
    (appChatRetrieve store question market).searchCalls
      = [appSearchRequest market 5, appSearchRequest "global" 2] ∧
    (appChatRetrieve store question market).merged
      = app_search_evidence store question market 5
        ++ app_search_evidence store question "global" 2 ∧
    ((appChatRetrieve store question market).merged ≠ [] →
      (appChatRetrieve store question market).evidence
        = (appChatRetrieve store question market).merged) ∧
    (∀ (localEv globalEv : List EvidenceItem),
      st_search_evidence store question market 4 = .ok localEv →
      st_search_evidence store question "global" 2 = .ok globalEv →
      stChatEvidence store question market = .ok (localEv ++ globalEv)) := by
  refine ⟨rfl, rfl, ?_, ?_⟩
  · intro hne
    have hne2 : app_search_evidence store question market 5
        ++ app_search_evidence store question "global" 2 ≠ [] := hne
    simp [appChatRetrieve, hne2]
  · intro localEv globalEv h1 h2
    simp [stChatEvidence, h1, h2]

/-- C1 witness: with one korea item and one global item in the store, both
apps pass the persona-first concatenation onward. -/
theorem c1_two_retrievals_concat_witness :
    (appChatRetrieve okStore "hello" "korea").evidence = [evKorea, evGlobal] ∧
    stChatEvidence okStore "hello" "korea" = .ok [evKorea, evGlobal] := by
  obtain ⟨-, -, h3, h4⟩ := c1_two_retrievals_concat okStore "hello" "korea"
  constructor
  · rw [h3 (by decide)]
    rfl
  · exact h4 [evKorea] [evGlobal] rfl rfl

/-- C2 counterexample: a retrieval that returns an empty result does not by
itself trigger the fallback (with the korea search nonempty and the global
search empty, no fallback fetch is issued), and in streamlit_app.py a
raised similarity-search error propagates out of the chat flow instead of
being recovered. -/
theorem c2_counterexample :
    app_search_evidence partialStore "any question" "global" 2 = [] ∧
    (appChatRetrieve partialStore "any question" "korea").fallbackRequest = none ∧
    stChatEvidence errStore "any question" "korea" = .error "boom" := by
  refine ⟨rfl, rfl, rfl⟩

/-- C2 (amended): in app.py a search error is caught inside search_evidence
and mapped to an empty result; when the merged two-retrieval result is
empty the chat tab issues one fallback fetch capped at 3 rows, and when
that fetch returns items they become the evidence, labelled as not
semantically matched in the debug info; in streamlit_app.py there is no
fallback and a search error propagates. -/
theorem c2_fallback_behavior :
    (∀ (store : Store) (q m : String) (lim : Nat) (e : String),
      store.rpcSearch q (appSearchRequest m lim) = .error e →
      app_search_evidence store q m lim = []) ∧
    (∀ (store : Store) (q m : String),
      (appChatRetrieve store q m).merged = [] →
      (appChatRetrieve store q m).fallbackRequest = some (m, 3)) ∧
    (∀ (store : Store) (q m : String) (data : List EvidenceItem),
      (appChatRetrieve store q m).merged = [] →
      store.tableFetch m 3 = .ok data → data ≠ [] →
      (appChatRetrieve store q m).evidence = data ∧
      ("✅ Fallback found " ++ toString data.length ++ " items (not semantically matched)")
        ∈ (appChatRetrieve store q m).debugInfo) ∧
    (∀ (store : Store) (q m e : String),
      store.rpcSearch q (appSearchRequest m 4) = .error e →
      stChatEvidence store q m = .error e) := by
  refine ⟨?_, ?_, ?_, ?_⟩
  · intro store q m lim e h
    simp [app_search_evidence, h]
  · intro store q m hm
    exact appChatRetrieve_fallback_req store q m hm
  · intro store q m data hm htf hd
    exact appChatRetrieve_fallback_hit store q m data hm htf hd
  · intro store q m e h
    simp [stChatEvidence, st_search_evidence, h]

/-- C2 witness: an erroring store yields an empty app.py search result, an
empty-search store triggers the capped fallback whose row is labelled, and
the erroring store makes the streamlit flow fail. -/
theorem c2_fallback_behavior_witness :
    app_search_evidence errStore "why" "korea" 5 = [] ∧
    (appChatRetrieve emptySearchStore "why" "korea").fallbackRequest = some ("korea", 3) ∧
    (appChatRetrieve emptySearchStore "why" "korea").evidence = [evFallback] ∧
    ("✅ Fallback found " ++ toString ([evFallback].length)
        ++ " items (not semantically matched)")
      ∈ (appChatRetrieve emptySearchStore "why" "korea").debugInfo ∧
    stChatEvidence errStore "why" "korea" = .error "boom" := by
  obtain ⟨h1, h2, h3, h4⟩ := c2_fallback_behavior
  obtain ⟨he, hl⟩ := h3 emptySearchStore "why" "korea" [evFallback] rfl rfl (by decide)
  exact ⟨h1 errStore "why" "korea" 5 "boom" rfl,
         h2 emptySearchStore "why" "korea" rfl, he, hl,
         h4 errStore "why" "korea" "boom" rfl⟩

/-- C4 counterexample: the similarity-search request of demo_app.py carries
threshold 0.60, not the claimed fixed 0.65. -/
theorem c4_counterexample :
    demoRetrieveRequest 3
      = { market_filter := "korea", match_threshold := (60 : ℚ)/100, match_count := 3 } ∧
    (demoRetrieveRequest 3).match_threshold ≠ (65 : ℚ)/100 ∧
    demo_retrieve_evidence okStore "any question" 3
      = okStore.rpcSearch "any question" (demoRetrieveRequest 3) := by
  refine ⟨rfl, ?_, rfl⟩
  simp only [demoRetrieveRequest]
  norm_num

/-- C4 (amended): search_evidence in app.py and in streamlit_app.py always
requests up to the given limit restricted to the given segment above
threshold 0.65, while retrieve_evidence in demo_app.py always requests up
to the given limit restricted to the fixed korea segment above threshold
0.60. -/
theorem c4_threshold_by_variant (store : Store) (q m : String) (lim : Nat) :
    appSearchRequest m lim
      = { market_filter := m, match_threshold := (65 : ℚ)/100, match_count := lim } ∧
    app_search_evidence store q m lim
      = (match store.rpcSearch q (appSearchRequest m lim) with
         | .ok data => data
         | .error _ => []) ∧
    st_search_evidence store q m lim = store.rpcSearch q (appSearchRequest m lim) ∧
    demo_retrieve_evidence store q lim
      = store.rpcSearch q
          { market_filter := "korea", match_threshold := (60 : ℚ)/100, match_count := lim } :=
  ⟨rfl, rfl, rfl, rfl⟩

/-- The condensed history text depends only on the last six exchanges. -/
theorem app_history_text_takeLast6 (h : List Exchange) :
    app_history_text (takeLast 6 h) = app_history_text h := by
  by_cases hh : h = []
  · subst hh; rfl
  · have h1 : takeLast 6 h ≠ [] := takeLast_ne_nil hh (by omega)
    simp only [app_history_text, app_summary_slice, if_neg hh, if_neg h1]
    rw [takeLast_takeLast (by omega)]

/-- The whole system prompt depends only on the last six exchanges. -/
theorem app_system_prompt_takeLast6 (p : Persona) (ev : List EvidenceItem)
    (h : List Exchange) :
    app_system_prompt p ev (takeLast 6 h) = app_system_prompt p ev h := by
  simp only [app_system_prompt, app_history_text_takeLast6]

/-- Flattening one two-message block per exchange doubles the length. -/
theorem flatten_pairs_length (l : List Exchange) :
    (List.flatten (l.map (fun item =>
      [Message.human item.question, Message.ai item.answer]))).length = 2 * l.length := by
  induction l with
  | nil => rfl
  | cons x xs ih =>
    simp [ih]
    omega

/-- C5 counterexample: with a four-exchange (eight-turn) history, the
condensed-summary slice is the whole four exchanges, not the last three
exchanges that a six-turn window would be, and the assembled message list
has 10 entries where forwarding only six turns would allow at most 8. -/
theorem c5_counterexample :
    app_summary_slice sampleHistory4 = sampleHistory4 ∧
    sampleHistory4.length = 4 ∧
    app_summary_slice sampleHistory4 ≠ takeLast 3 sampleHistory4 ∧
    (app_messages samplePersona "next question" [] sampleHistory4).length = 10 := by
  refine ⟨by decide, rfl, by decide, by rfl⟩

/-- C5 (amended): the condensed history summary covers the last six
exchanges (twelve turns), the replayed message history covers the last
four exchanges (eight turns), the assembled messages depend only on the
last six exchanges, and their number is bounded by 10 whatever the total
history length. -/
theorem c5_history_slices (p : Persona) (q : String) (ev : List EvidenceItem)
    (h : List Exchange) :
    app_summary_slice h = takeLast 6 h ∧
    (app_summary_slice h).length ≤ 6 ∧
    app_forward_slice h = takeLast 4 h ∧
    app_messages p q ev h = app_messages p q ev (takeLast 6 h) ∧
    (app_messages p q ev h).length ≤ 10 := by
  refine ⟨rfl, takeLast_length_le 6 h, rfl, ?_, ?_⟩
  · simp only [app_messages, app_forward_slice, app_system_prompt_takeLast6,
      takeLast_takeLast (show 4 ≤ 6 by omega)]
  · have hlen := takeLast_length_le 4 h
    simp only [app_messages, app_forward_slice, List.length_append, List.length_cons,
      List.length_nil, flatten_pairs_length]
    omega

/-- C6: prompt assembly is pure string composition, so any two invocations
on equal personas, questions, evidence lists and histories produce the
identical assembled text in all three variants. -/
theorem c6_prompt_deterministic (p₁ p₂ : Persona) (q₁ q₂ : String)
    (ev₁ ev₂ : List EvidenceItem) (h₁ h₂ : List Exchange)
    (dp₁ dp₂ : DemoPersona) (b₁ b₂ : Bool) (dev₁ dev₂ : List EvidenceItem)
    (hp : p₁ = p₂) (hq : q₁ = q₂) (hev : ev₁ = ev₂) (hh : h₁ = h₂)
    (hdp : dp₁ = dp₂) (hb : b₁ = b₂) (hdev : dev₁ = dev₂) :
    app_messages p₁ q₁ ev₁ h₁ = app_messages p₂ q₂ ev₂ h₂ ∧
    st_system_prompt p₁ ev₁ = st_system_prompt p₂ ev₂ ∧
    demo_system_prompt dp₁ b₁ dev₁ = demo_system_prompt dp₂ b₂ dev₂ := by
  subst hp hq hev hh hdp hb hdev
  exact ⟨rfl, rfl, rfl⟩

/-- C6 witness: two invocations on one concrete input set coincide for all
three assemblers. -/
theorem c6_prompt_deterministic_witness :
    app_messages samplePersona "hello" [evKorea] sampleHistory4
      = app_messages samplePersona "hello" [evKorea] sampleHistory4 ∧
    st_system_prompt samplePersona [evKorea] = st_system_prompt samplePersona [evKorea] ∧
    demo_system_prompt demo_PERSONA true [evKorea]
      = demo_system_prompt demo_PERSONA true [evKorea] :=
  c6_prompt_deterministic samplePersona samplePersona "hello" "hello" [evKorea] [evKorea]
    sampleHistory4 sampleHistory4 demo_PERSONA demo_PERSONA true true [evKorea] [evKorea]
    rfl rfl rfl rfl rfl rfl rfl

/-- C9 counterexample: a persona populated only with the legacy attribute
set yields, from the app.py assembler, exactly the same system prompt as
the same persona with its legacy fields erased, so the populated legacy
attributes are never rendered and the claimed whichever-is-populated
support fails. -/
theorem c9_counterexample :
    legacyOnlyPersona.bio = some "Loves hiking" ∧
    legacyOnlyPersona.household = none ∧
    (stripLegacy legacyOnlyPersona).bio = none ∧
    app_system_prompt legacyOnlyPersona [] []
      = app_system_prompt (stripLegacy legacyOnlyPersona) [] [] :=
  ⟨rfl, rfl, rfl, rfl⟩

/-- C9 (amended): the app.py prompt assembler reads only the name and the
new-style attributes, substituting fixed defaults when they are absent and
ignoring the legacy attributes entirely, while the streamlit_app.py
assembler reads only the name, market and legacy attributes and ignores
the new-style ones; neither assembler supports both schemas. -/
theorem c9_schema_split (p : Persona) (ev : List EvidenceItem) (h : List Exchange) :
    app_system_prompt p ev h = app_system_prompt (stripLegacy p) ev h ∧
    st_system_prompt p ev = st_system_prompt (stripNewStyle p) ev :=
  ⟨rfl, rfl⟩

/-- With a generator that always answers, folding turns over a history maps
its questions onto the stored exchanges in call order. -/
theorem run_fold_map_q (gen : List Message → Except String String) (p : Persona)
    (hok : ∀ msgs, (gen msgs).isOk = true) :
    ∀ (turns : List (String × List EvidenceItem)) (h0 : List Exchange),
      (turns.foldl (fun h t => chat_turn gen p h t.1 t.2) h0).map Exchange.question
        = h0.map Exchange.question ++ turns.map Prod.fst := by
  intro turns
  induction turns with
  | nil => intro h0; simp
  | cons t ts ih =>
    intro h0
    rw [List.foldl_cons]
    cases hgen : gen (app_messages p t.1 t.2 h0) with
    | error e =>
      have hk := hok (app_messages p t.1 t.2 h0)
      rw [hgen] at hk
      simp [Except.isOk, Except.toBool] at hk
    | ok a =>
      have hct : chat_turn gen p h0 t.1 t.2
          = h0 ++ [{ question := t.1, answer := a, evidence := t.2 }] := by
        simp [chat_turn, hgen]
      rw [hct, ih]
      simp

/-- C3: when every generation call succeeds, a session of N turns stores
exactly N exchanges whose questions appear in call order; and a turn whose
generation call raises leaves the stored history exactly unchanged, the
in-progress exchange never being appended. -/
theorem c3_history_integrity :
    (∀ (gen : List Message → Except String String) (p : Persona)
        (turns : List (String × List EvidenceItem)),
      (∀ msgs, (gen msgs).isOk = true) →
      (run_session gen p turns).length = turns.length ∧
      (run_session gen p turns).map Exchange.question = turns.map Prod.fst) ∧
    (∀ (gen : List Message → Except String String) (p : Persona)
        (history : List Exchange) (question : String)
        (ev : List EvidenceItem) (err : String),
      gen (app_messages p question ev history) = .error err →
      chat_turn gen p history question ev = history) := by
  constructor
  · intro gen p turns hok
    have hmap := run_fold_map_q gen p hok turns []
    simp only [run_session]
    constructor
    · have hlen := congrArg List.length hmap
      simpa using hlen
    · simpa using hmap
  · intro gen p history question ev err hgen
    simp [chat_turn, hgen]

/-- C3 witness: two successful turns store two exchanges in order, and a
third turn whose generator raises leaves that history unchanged. -/
theorem c3_history_integrity_witness :
    (run_session genOkFn samplePersona [("q1", []), ("q2", [])]).length = 2 ∧
    (run_session genOkFn samplePersona [("q1", []), ("q2", [])]).map Exchange.question
      = ["q1", "q2"] ∧
    chat_turn genFailFn samplePersona
        (run_session genOkFn samplePersona [("q1", []), ("q2", [])]) "q3" []
      = run_session genOkFn samplePersona [("q1", []), ("q2", [])] := by
  obtain ⟨hA, hB⟩ := c3_history_integrity
  obtain ⟨h1, h2⟩ := hA genOkFn samplePersona [("q1", []), ("q2", [])] (fun _ => rfl)
  exact ⟨h1, h2, hB genFailFn samplePersona _ "q3" [] "net down" rfl⟩
